import Mathlib

/-!
Shallow embedding of the NEO backend core
(`app/services/neo_processing.py`, `app/services/nasa_client.py`, and the
chat manager of `app/main.py`), with proofs about its behaviour.

Modelling conventions:
* Python floats are modelled as rationals (`ℚ`); calendar dates and UTC
  timestamps as integers (ordinal day number, respectively seconds).
* A JSON field that may be absent or `None` is an `Option`.
* Python dicts (which preserve insertion order) are association lists.
* Network calls are passed in as explicit arguments (the payload or the
  raised `requests.RequestException`), and the functions return, besides
  their value, the new cache state and a trace of the calls they made.
-/

/-- A Python value stored in a raw numeric JSON field, classified by how
`float(value)` behaves on it: `num q` is an int/float of value `q`,
`numStr q` is a string that `float` parses to `q`, `badStr s` is a string
rejected by `float` (`ValueError`), `null` is `None` or an absent key
(`TypeError`), and `other` is any other non-convertible object
(`TypeError`). -/
inductive RawVal where
  | null : RawVal
  | num (q : ℚ) : RawVal
  | numStr (q : ℚ) : RawVal
  | badStr (s : String) : RawVal
  | other : RawVal
deriving DecidableEq

/-- `to_float(value)`: `float(value)` with `TypeError` / `ValueError`
mapped to `None`. -/
def to_float : RawVal → Option ℚ
  | RawVal.num q => some q
  | RawVal.numStr q => some q
  | _ => none

/-- `risk_analysis(diameter_m, miss_distance_km, velocity_kps, hazardous)`:
additive score plus category thresholds. -/
def risk_analysis (diameter_m miss_distance_km velocity_kps : Option ℚ)
    (hazardous : Bool) : ℤ × String :=
  let hazardPts : ℤ := if hazardous then 50 else 0
  let diameterPts : ℤ :=
    match diameter_m with
    | none => 0
    | some d => if d ≥ 1000 then 30 else if d ≥ 300 then 20 else if d ≥ 140 then 10 else 0
  let missPts : ℤ :=
    match miss_distance_km with
    | none => 0
    | some m => if m ≤ 750000 then 30 else if m ≤ 3000000 then 20 else if m ≤ 7500000 then 10 else 0
  let velocityPts : ℤ :=
    match velocity_kps with
    | none => 0
    | some v => if v ≥ 25 then 15 else if v ≥ 15 then 10 else if v ≥ 8 then 5 else 0
  let score := hazardPts + diameterPts + missPts + velocityPts
  let category := if score ≥ 70 then "High" else if score ≥ 40 then "Medium" else "Low"
  (score, category)

/-- The hazardous-flag component of the risk score. -/
def hazardPoints (hazardous : Bool) : ℤ := if hazardous then 50 else 0

/-- The diameter component of the risk score. -/
def diameterPoints : Option ℚ → ℤ
  | none => 0
  | some d => if d ≥ 1000 then 30 else if d ≥ 300 then 20 else if d ≥ 140 then 10 else 0

/-- The miss-distance component of the risk score. -/
def missPoints : Option ℚ → ℤ
  | none => 0
  | some m => if m ≤ 750000 then 30 else if m ≤ 3000000 then 20 else if m ≤ 7500000 then 10 else 0

/-- The velocity component of the risk score. -/
def velocityPoints : Option ℚ → ℤ
  | none => 0
  | some v => if v ≥ 25 then 15 else if v ≥ 15 then 10 else if v ≥ 8 then 5 else 0

/-- The dict stored under the `relative_velocity` key of a close-approach
entry; an absent `kilometers_per_second` key is `RawVal.null`. -/
structure RelativeVelocity where
  kilometers_per_second : RawVal
deriving DecidableEq

/-- The dict stored under the `miss_distance` key of a close-approach
entry; an absent `kilometers` key is `RawVal.null`. -/
structure MissDistance where
  kilometers : RawVal
deriving DecidableEq

/-- One raw close-approach entry. A `none` field is an absent (or `None`)
key. -/
structure CloseApproach where
  close_approach_date : Option String
  orbiting_body : Option String
  relative_velocity : Option RelativeVelocity
  miss_distance : Option MissDistance
deriving DecidableEq

/-- The `{}` placeholder returned when no close-approach entries exist:
every `.get` on it yields `None`. -/
def emptyCloseApproach : CloseApproach := ⟨none, none, none, none⟩

/-- The dict `record.get('estimated_diameter', {}).get('meters', {})`,
collapsed: `none` at the `Asteroid` level means either of the two outer
keys is missing, `RawVal.null` an absent inner key. -/
structure EstimatedDiameterM where
  estimated_diameter_min : RawVal
  estimated_diameter_max : RawVal
deriving DecidableEq

/-- One raw asteroid record from the feed payload.
`is_potentially_hazardous_asteroid` stores the Python truthiness of that
key when present (`bool(...)` of arbitrary JSON is taken as primitive). -/
structure Asteroid where
  id : Option String
  name : Option String
  nasa_jpl_url : Option String
  neo_reference_id : Option String
  estimated_diameter_meters : Option EstimatedDiameterM
  is_potentially_hazardous_asteroid : Option Bool
  close_approach_data : Option (List CloseApproach)
deriving DecidableEq

/-- Condition of the first `for idx, entry in enumerate(entries)` loop of
`pick_close_approach`. -/
def caMatchesDate (approach_date : String) (e : CloseApproach) : Bool :=
  e.close_approach_date == some approach_date && e.orbiting_body == some "Earth"

/-- Condition of the second `for idx, entry in enumerate(entries)` loop of
`pick_close_approach`. -/
def caIsEarth (e : CloseApproach) : Bool :=
  e.orbiting_body == some "Earth"

/-- A `for idx, entry in enumerate(entries): if p(entry): return idx, entry`
loop, with `i` the running index. -/
def findEnum (p : CloseApproach → Bool) : ℕ → List CloseApproach → Option (ℕ × CloseApproach)
  | _, [] => none
  | i, e :: es => if p e then some (i, e) else findEnum p (i + 1) es

/-- `pick_close_approach(asteroid, approach_date)`: two enumerate
searches, then the first entry, then the empty placeholder. -/
def pick_close_approach (asteroid : Asteroid) (approach_date : String) :
    Option ℕ × CloseApproach :=
  let entries := asteroid.close_approach_data.getD []
  match findEnum (caMatchesDate approach_date) 0 entries with
  | some (idx, entry) => (some idx, entry)
  | none =>
    match findEnum caIsEarth 0 entries with
    | some (idx, entry) => (some idx, entry)
    | none =>
      match entries with
      | entry :: _ => (some 0, entry)
      | [] => (none, emptyCloseApproach)

/-- Reference selection transcribed from the wording of claim C5: the
first index satisfying (a), else (b), read off with the entry at that
index of the original sequence; else the first entry with index 0; else
the empty placeholder with a null index. -/
def pickCloseApproachSpec (asteroid : Asteroid) (approach_date : String) :
    Option ℕ × CloseApproach :=
  let entries := asteroid.close_approach_data.getD []
  match entries.findIdx? (caMatchesDate approach_date) with
  | some i => (some i, entries.getD i emptyCloseApproach)
  | none =>
    match entries.findIdx? caIsEarth with
    | some i => (some i, entries.getD i emptyCloseApproach)
    | none =>
      match entries with
      | entry :: _ => (some 0, entry)
      | [] => (none, emptyCloseApproach)

/-- Round to the nearest integer, ties to the even integer: the Python
built-in `round` on a value modelled as a rational. -/
def roundHalfEven (q : ℚ) : ℤ :=
  let f := ⌊q⌋
  if q - f < 1/2 then f
  else if q - f > 1/2 then f + 1
  else if f % 2 = 0 then f else f + 1

/-- Python `round(x, ndigits)` for nonnegative `ndigits`. -/
def pyRound (q : ℚ) (ndigits : ℕ) : ℚ :=
  (roundHalfEven (q * 10 ^ ndigits) : ℚ) / 10 ^ ndigits

/-- The provenance sub-record `source_record` of a normalized feed item. -/
structure SourceRecord where
  neo_reference_id : Option String
  close_approach_index : Option ℕ
deriving DecidableEq

/-- One normalized feed item: the dict appended to `items` by
`normalize_feed_payload`. -/
structure NormalizedItem where
  id : Option String
  name : Option String
  nasa_jpl_url : Option String
  close_approach_date : String
  orbiting_body : String
  estimated_diameter_m : Option ℚ
  estimated_diameter_km : Option ℚ
  relative_velocity_kps : Option ℚ
  relative_velocity_kph : Option ℚ
  miss_distance_km : Option ℚ
  is_potentially_hazardous : Bool
  risk_score : ℤ
  risk_category : String
  source_record : SourceRecord
deriving DecidableEq

/-- The body of the inner `for asteroid in asteroids` loop of
`normalize_feed_payload`: one raw record to one normalized item. -/
def normalizeAsteroid (approach_date : String) (asteroid : Asteroid) : NormalizedItem :=
  let pick := pick_close_approach asteroid approach_date
  let close_data := pick.2
  let rel_vel := close_data.relative_velocity.getD ⟨RawVal.null⟩
  let miss_dist := close_data.miss_distance.getD ⟨RawVal.null⟩
  let diameter := asteroid.estimated_diameter_meters.getD ⟨RawVal.null, RawVal.null⟩
  let max_diameter_m := to_float diameter.estimated_diameter_max
  let min_diameter_m := to_float diameter.estimated_diameter_min
  let avg_diameter_m : Option ℚ :=
    match max_diameter_m, min_diameter_m with
    | some mx, some mn => some ((mx + mn) / 2)
    | some mx, none => some mx
    | none, some mn => some mn
    | none, none => none
  let velocity_kps := to_float rel_vel.kilometers_per_second
  let miss_distance_km := to_float miss_dist.kilometers
  let hazardous := asteroid.is_potentially_hazardous_asteroid.getD false
  let risk := risk_analysis avg_diameter_m miss_distance_km velocity_kps hazardous
  { id := asteroid.id
    name := asteroid.name
    nasa_jpl_url := asteroid.nasa_jpl_url
    close_approach_date := close_data.close_approach_date.getD approach_date
    orbiting_body := close_data.orbiting_body.getD "Earth"
    estimated_diameter_m := avg_diameter_m.map (fun q => pyRound q 3)
    estimated_diameter_km := avg_diameter_m.map (fun q => pyRound (q / 1000) 6)
    relative_velocity_kps := velocity_kps.map (fun q => pyRound q 6)
    relative_velocity_kph := velocity_kps.map (fun q => pyRound (q * 3600) 3)
    miss_distance_km := miss_distance_km.map (fun q => pyRound q 3)
    is_potentially_hazardous := hazardous
    risk_score := risk.1
    risk_category := risk.2
    source_record := ⟨asteroid.neo_reference_id, pick.1⟩ }

/-- A raw feed payload: pagination `links`, the upstream `element_count`,
and the by-date map `near_earth_objects` as an insertion-ordered
association list. -/
structure FeedPayload where
  links : List (String × String)
  element_count : ℤ
  near_earth_objects : List (String × List Asteroid)
deriving DecidableEq

/-- The nested `for approach_date, asteroids in neo_by_date.items()` /
`for asteroid in asteroids` walk of `normalize_feed_payload`, in
encounter order. -/
def buildFeedItems (feed_payload : FeedPayload) : List NormalizedItem :=
  feed_payload.near_earth_objects.flatMap
    (fun dayRec => dayRec.2.map (normalizeAsteroid dayRec.1))

/-- The comparison of `items.sort(key=lambda x: x['risk_score'], reverse=True)`:
`a` may stay before `b` when the score of `b` does not exceed the score
of `a`. -/
def itemLE (a b : NormalizedItem) : Bool := b.risk_score ≤ a.risk_score

/-- `normalize_feed_payload`: normalized items in encounter order, then a
stable sort by risk score descending (CPython list.sort is stable). -/
def normalize_feed_payload (feed_payload : FeedPayload) : List NormalizedItem :=
  (buildFeedItems feed_payload).mergeSort itemLE

/-- Concrete feed record with both estimated-diameter bounds present. -/
def asteroidBothDiameters : Asteroid :=
  ⟨some "3542519", some "(2010 PK9)", some "http://example/3542519", some "3542519",
   some ⟨RawVal.num 100, RawVal.num 200⟩, some true,
   some [⟨some "2024-01-01", some "Earth", some ⟨RawVal.num 10⟩, some ⟨RawVal.num 500000⟩⟩]⟩

/-- Concrete feed record with every optional raw field missing. -/
def asteroidAllMissing : Asteroid :=
  ⟨none, none, none, none, none, none, none⟩

/-- The dict under the `orbital_data` key of a lookup payload; absent
numeric keys are `RawVal.null`. -/
structure OrbitalData where
  semi_major_axis : RawVal
  eccentricity : RawVal
  inclination : RawVal
  ascending_node_longitude : RawVal
  perihelion_argument : RawVal
  mean_anomaly : RawVal
  mean_motion : RawVal
  epoch_osculation : Option String
deriving DecidableEq

/-- `payload.get('orbital_data') or {}` on an absent key: the all-null
orbital dict. -/
def emptyOrbitalData : OrbitalData :=
  ⟨RawVal.null, RawVal.null, RawVal.null, RawVal.null, RawVal.null,
   RawVal.null, RawVal.null, none⟩

/-- One raw lookup payload (a single asteroid record plus orbital data). -/
structure LookupPayload where
  id : Option String
  name : Option String
  nasa_jpl_url : Option String
  estimated_diameter_meters : Option EstimatedDiameterM
  is_potentially_hazardous_asteroid : Option Bool
  close_approach_data : Option (List CloseApproach)
  orbital_data : Option OrbitalData
deriving DecidableEq

/-- The `orbital_elements` sub-record of a normalized lookup item. -/
structure OrbitalElements where
  semi_major_axis_au : Option ℚ
  eccentricity : Option ℚ
  inclination_deg : Option ℚ
  ascending_node_longitude_deg : Option ℚ
  perihelion_argument_deg : Option ℚ
  mean_anomaly_deg : Option ℚ
  mean_motion_deg_per_day : Option ℚ
  epoch_osculation : Option String
deriving DecidableEq

/-- The normalized lookup item returned by `normalize_lookup_payload`. -/
structure LookupItem where
  id : Option String
  name : Option String
  nasa_jpl_url : Option String
  close_approach_date : Option String
  orbiting_body : Option String
  estimated_diameter_m : Option ℚ
  estimated_diameter_km : Option ℚ
  relative_velocity_kps : Option ℚ
  relative_velocity_kph : Option ℚ
  miss_distance_km : Option ℚ
  is_potentially_hazardous : Bool
  risk_score : ℤ
  risk_category : String
  raw_close_approach_count : ℕ
  orbital_elements : OrbitalElements
deriving DecidableEq

/-- `normalize_lookup_payload(payload)`: close-approach fields come from
`close_approach_data[0]` when the list is nonempty, else from `{}`. -/
def normalize_lookup_payload (payload : LookupPayload) : LookupItem :=
  let diameter := payload.estimated_diameter_meters.getD ⟨RawVal.null, RawVal.null⟩
  let min_diameter_m := to_float diameter.estimated_diameter_min
  let max_diameter_m := to_float diameter.estimated_diameter_max
  let avg_diameter_m : Option ℚ :=
    match min_diameter_m, max_diameter_m with
    | some mn, some mx => some ((mn + mx) / 2)
    | some mn, none => some mn
    | none, some mx => some mx
    | none, none => none
  let close_entries := payload.close_approach_data.getD []
  let close_data :=
    match close_entries with
    | entry :: _ => entry
    | [] => emptyCloseApproach
  let velocity_kps := to_float ((close_data.relative_velocity.getD ⟨RawVal.null⟩).kilometers_per_second)
  let miss_distance_km := to_float ((close_data.miss_distance.getD ⟨RawVal.null⟩).kilometers)
  let hazardous := payload.is_potentially_hazardous_asteroid.getD false
  let risk := risk_analysis avg_diameter_m miss_distance_km velocity_kps hazardous
  let orbital_data := payload.orbital_data.getD emptyOrbitalData
  { id := payload.id
    name := payload.name
    nasa_jpl_url := payload.nasa_jpl_url
    close_approach_date := close_data.close_approach_date
    orbiting_body := close_data.orbiting_body
    estimated_diameter_m := avg_diameter_m.map (fun q => pyRound q 3)
    estimated_diameter_km := avg_diameter_m.map (fun q => pyRound (q / 1000) 6)
    relative_velocity_kps := velocity_kps.map (fun q => pyRound q 6)
    relative_velocity_kph := velocity_kps.map (fun q => pyRound (q * 3600) 3)
    miss_distance_km := miss_distance_km.map (fun q => pyRound q 3)
    is_potentially_hazardous := hazardous
    risk_score := risk.1
    risk_category := risk.2
    raw_close_approach_count := close_entries.length
    orbital_elements :=
      ⟨to_float orbital_data.semi_major_axis, to_float orbital_data.eccentricity,
       to_float orbital_data.inclination, to_float orbital_data.ascending_node_longitude,
       to_float orbital_data.perihelion_argument, to_float orbital_data.mean_anomaly,
       to_float orbital_data.mean_motion, orbital_data.epoch_osculation⟩ }

/-- Concrete lookup payload whose first close-approach entry orbits Venus
while the second orbits Earth. -/
def lookupTwoEntries : LookupPayload :=
  ⟨some "99942", some "Apophis", none, none, some false,
   some [⟨some "2029-04-13", some "Venus", some ⟨RawVal.num 7⟩, some ⟨RawVal.num 38000⟩⟩,
         ⟨some "2029-04-13", some "Earth", none, none⟩],
   none⟩

/-- Concrete lookup payload with an empty close-approach list. -/
def lookupNoEntries : LookupPayload :=
  ⟨none, none, none, none, none, some [], none⟩

/-- Lookup in an insertion-ordered Python dict. -/
def dictGet {κ α : Type} [DecidableEq κ] : List (κ × α) → κ → Option α
  | [], _ => none
  | (k', v') :: rest, k => if k' = k then some v' else dictGet rest k

/-- Assignment `d[k] = v` in an insertion-ordered Python dict: replace in
place when the key exists, append otherwise. -/
def dictSet {κ α : Type} [DecidableEq κ] : List (κ × α) → κ → α → List (κ × α)
  | [], k, v => [(k, v)]
  | (k', v') :: rest, k, v =>
    if k' = k then (k', v) :: rest else (k', v') :: dictSet rest k v

/-- A live chat connection handle (`WebSocket` identity). -/
abbrev SocketId := ℕ

/-- The `ChatManager` registry `self._clients`. -/
structure ChatState where
  clients : List (SocketId × String)
deriving DecidableEq

/-- An outbound chat event, abstracted from its JSON payload: either a
private send to one connection or a broadcast to all. Timestamps and
active-user counts are real-time data and are left out of the model. -/
inductive ChatEvent where
  | personal (target : SocketId) (eventType : String) (message : String)
  | broadcastSystem (message : String)
deriving DecidableEq

/-- `ChatManager.username_for`: registry value or the `Guest` default. -/
def username_for (st : ChatState) (ws : SocketId) : String :=
  (dictGet st.clients ws).getD "Guest"

/-- Python `(next_name or '').strip()`: drop whitespace from both ends. -/
def pyStrip (cs : List Char) : List Char :=
  ((cs.dropWhile Char.isWhitespace).reverse.dropWhile Char.isWhitespace).reverse

/-- `(next_name or '').strip()[:24]` of `ChatManager.rename`. -/
def cleanName (next_name : String) : String :=
  String.mk ((pyStrip next_name.data).take 24)

/-- `ChatManager.rename`: empty cleaned name sends a private error and
changes nothing; otherwise the registry is updated and a system event is
broadcast only when the name changed. Transport send failures are IO and
modelled as absent. -/
def ChatManager.rename (st : ChatState) (ws : SocketId) (next_name : String) :
    ChatState × List ChatEvent :=
  let prev_name := username_for st ws
  let candidate := cleanName next_name
  if candidate = "" then
    (st, [ChatEvent.personal ws "error" "Display name cannot be empty."])
  else
    let st' : ChatState := ⟨dictSet st.clients ws candidate⟩
    if candidate ≠ prev_name then
      (st', [ChatEvent.broadcastSystem (prev_name ++ " is now " ++ candidate ++ ".")])
    else
      (st', [])

/-- Lower-case an ASCII letter (`str.lower` on the characters that occur
in the rate-limit phrases). -/
def charLower (c : Char) : Char :=
  if 'A' ≤ c && c ≤ 'Z' then Char.ofNat (c.toNat + 32) else c

/-- Python `s.lower()`. -/
def pyLower (s : String) : String := String.mk (s.data.map charLower)

/-- Substring test: does `needle` occur contiguously in the haystack? -/
def listContainsSub (needle : List Char) : List Char → Bool
  | [] => needle.isEmpty
  | c :: rest => needle.isPrefixOf (c :: rest) || listContainsSub needle rest

/-- Python `needle in haystack` on strings. -/
def strContains (haystack needle : String) : Bool :=
  listContainsSub needle.data haystack.data

/-- The `requests.Response` attached to a failure. `body_json = some s`
means `response.json()` succeeds and `str(body)` is `s`; `none` means it
raises `ValueError`. `text` is `response.text` (`none` for a `None`
text, absorbed by `or ''`). -/
structure PyResponse where
  status_code : Option ℤ
  body_json : Option String
  text : Option String
deriving DecidableEq

/-- A `requests.RequestException`; `response` is `None` for pure
connection failures. -/
structure RequestError where
  response : Option PyResponse
deriving DecidableEq

/-- `_looks_like_rate_limit(exc)`. -/
def _looks_like_rate_limit (exc : RequestError) : Bool :=
  match exc.response with
  | none => false
  | some r =>
    if r.status_code = some 429 then true
    else if r.status_code = some 401 ∨ r.status_code = some 403 then
      let text :=
        match r.body_json with
        | some body => pyLower body
        | none => pyLower (r.text.getD "")
      strContains text "rate limit" || strContains text "too many requests"
    else false

/-- The `fastapi.HTTPException` raised by `_raise_nasa_error`, reduced to
status code and the `error` field of its detail dict. -/
structure HTTPException where
  status_code : ℤ
  error : String
  upstream_status : Option ℤ
deriving DecidableEq

/-- `_raise_nasa_error(exc)`: the exception it raises. -/
def _raise_nasa_error (exc : RequestError) : HTTPException :=
  let status := exc.response.bind (fun r => r.status_code)
  if _looks_like_rate_limit exc then ⟨503, "NASA_RATE_LIMIT", none⟩
  else if status = some 401 ∨ status = some 403 then ⟨502, "NASA_AUTH_ERROR", none⟩
  else ⟨502, "NASA_UPSTREAM_ERROR", status⟩

/-- `_cache_get(cache, key, ttl_seconds)` at time `now`: a payload only
while `now - ts ≤ ttl_seconds`. -/
def _cache_get {κ π : Type} [DecidableEq κ] (cache : List (κ × (ℤ × π))) (key : κ)
    (ttl_seconds now : ℤ) : Option π :=
  match dictGet cache key with
  | none => none
  | some (ts, payload) => if now - ts > ttl_seconds then none else some payload

def _FEED_TTL_SECONDS : ℤ := 90

def _LOOKUP_TTL_SECONDS : ℤ := 60 * 60 * 6

/-- Common body of `fetch_feed` and `fetch_lookup`: fresh-cache return,
else the HTTP request (its outcome passed in as `httpResult`), storing on
success, stale fallback on a rate-limited failure, raising otherwise.
The `Bool` of the result records whether the network request was issued,
and the middle component is the cache afterwards. -/
def cachedFetch {κ π : Type} [DecidableEq κ] (ttl_seconds : ℤ)
    (cache : List (κ × (ℤ × π))) (now : ℤ) (key : κ)
    (httpResult : Except RequestError π) :
    Except HTTPException π × List (κ × (ℤ × π)) × Bool :=
  match _cache_get cache key ttl_seconds now with
  | some payload => (Except.ok payload, cache, false)
  | none =>
    match httpResult with
    | Except.ok payload => (Except.ok payload, dictSet cache key (now, payload), true)
    | Except.error exc =>
      if _looks_like_rate_limit exc then
        match dictGet cache key with
        | some stale => (Except.ok stale.2, cache, true)
        | none => (Except.error (_raise_nasa_error exc), cache, true)
      else (Except.error (_raise_nasa_error exc), cache, true)

/-- `fetch_feed(start_date, end_date)` against a given cache, clock and
HTTP outcome; the cache key is the date pair. -/
def fetch_feed (cache : List ((ℤ × ℤ) × (ℤ × FeedPayload))) (now : ℤ)
    (start_date end_date : ℤ) (httpResult : Except RequestError FeedPayload) :
    Except HTTPException FeedPayload × List ((ℤ × ℤ) × (ℤ × FeedPayload)) × Bool :=
  cachedFetch _FEED_TTL_SECONDS cache now (start_date, end_date) httpResult

/-- `fetch_lookup(asteroid_id)` against a given cache, clock and HTTP
outcome; the cache key is the asteroid id. -/
def fetch_lookup (cache : List (String × (ℤ × LookupPayload))) (now : ℤ)
    (asteroid_id : String) (httpResult : Except RequestError LookupPayload) :
    Except HTTPException LookupPayload × List (String × (ℤ × LookupPayload)) × Bool :=
  cachedFetch _LOOKUP_TTL_SECONDS cache now asteroid_id httpResult

/-- The classification stated by claim C2, transcribed from the spec: the
response body as text, lower-cased: the JSON body when parsing succeeds,
the raw text otherwise. -/
def excBodyText (exc : RequestError) : String :=
  match exc.response with
  | none => ""
  | some r =>
    match r.body_json with
    | some body => pyLower body
    | none => pyLower (r.text.getD "")

/-- The claim C2 rate-limit condition: status 429, or status 401/403 with
a body containing one of the two phrases. -/
def claimRateLimited (exc : RequestError) : Prop :=
  exc.response.bind (fun r => r.status_code) = some 429 ∨
  ((exc.response.bind (fun r => r.status_code) = some 401 ∨
    exc.response.bind (fun r => r.status_code) = some 403) ∧
   (strContains (excBodyText exc) "rate limit" = true ∨
    strContains (excBodyText exc) "too many requests" = true))

/-- Concrete 429 failure. -/
def exc429 : RequestError := ⟨some ⟨some 429, none, some ""⟩⟩

/-- Concrete 500 failure. -/
def exc500 : RequestError := ⟨some ⟨some 500, none, some "boom"⟩⟩

/-- Concrete 403 failure whose JSON body mentions the rate limit. -/
def exc403 : RequestError :=
  ⟨some ⟨some 403, some "API Rate Limit Exceeded", none⟩⟩

/-- Concrete feed payload for cache witnesses. -/
def feedPayloadA : FeedPayload := ⟨[("self", "page1")], 1, [("2024-01-01", [asteroidAllMissing])]⟩

/-- A second concrete feed payload. -/
def feedPayloadB : FeedPayload := ⟨[], 0, []⟩

/-- Concrete lookup payload for cache witnesses. -/
def lookupPayloadA : LookupPayload := lookupNoEntries

/-- The empty payload returned for a degenerate range. -/
def emptyFeedPayload : FeedPayload := ⟨[], 0, []⟩

/-- `merged.setdefault(day, []).extend(rows or [])` on the
insertion-ordered merged map (`rows or []` is the identity on the list
values modelled here). -/
def dictExtend : List (String × List Asteroid) → String → List Asteroid → List (String × List Asteroid)
  | [], day, rows => [(day, rows)]
  | (d, rs) :: rest, day, rows =>
    if d = day then (d, rs ++ rows) :: rest else (d, rs) :: dictExtend rest day rows

/-- The `for day, rows in (chunk.get('near_earth_objects') or {}).items()`
loop of `fetch_feed_range`, folding one chunk into the merged map. -/
def mergeChunk (merged : List (String × List Asteroid)) (chunk : FeedPayload) :
    List (String × List Asteroid) :=
  chunk.near_earth_objects.foldl (fun m dayRows => dictExtend m dayRows.1 dayRows.2) merged

/-- The `while cursor <= end_date` loop of `fetch_feed_range`: final
links, merged by-date map, and the trace of `fetch_feed` windows in call
order. -/
def feedRangeLoop (feed : ℤ → ℤ → FeedPayload) (end_date : ℤ) (cursor : ℤ)
    (links : List (String × String)) (merged : List (String × List Asteroid)) :
    List (String × String) × List (String × List Asteroid) × List (ℤ × ℤ) :=
  if h : cursor ≤ end_date then
    let chunk_end := min (cursor + 6) end_date
    let chunk := feed cursor chunk_end
    let links2 := if links.isEmpty then chunk.links else links
    let merged2 := mergeChunk merged chunk
    let rest := feedRangeLoop feed end_date (chunk_end + 1) links2 merged2
    (rest.1, rest.2.1, (cursor, chunk_end) :: rest.2.2)
  else (links, merged, [])
termination_by (end_date + 1 - cursor).toNat
decreasing_by
  simp_wf
  omega

/-- `sum(len(rows) for rows in merged.values())`. -/
def totalRows (m : List (String × List Asteroid)) : ℤ :=
  (m.map (fun dayRows => (dayRows.2.length : ℤ))).sum

/-- `fetch_feed_range(start_date, end_date)` over an abstract per-window
`fetch_feed` outcome function, together with the trace of `fetch_feed`
calls it makes. -/
def fetch_feed_range (feed : ℤ → ℤ → FeedPayload) (start_date end_date : ℤ) :
    FeedPayload × List (ℤ × ℤ) :=
  if end_date < start_date then (⟨[], 0, []⟩, [])
  else if end_date - start_date ≤ 7 then (feed start_date end_date, [(start_date, end_date)])
  else
    let r := feedRangeLoop feed end_date start_date [] []
    (⟨r.1, totalRows r.2.1, r.2.1⟩, r.2.2)

/-- The consecutive windows `[cursor, min(cursor + 6, end_date)]` walking
the range, as stated by claim C1. -/
def rangeWindows (end_date : ℤ) (cursor : ℤ) : List (ℤ × ℤ) :=
  if h : cursor ≤ end_date then
    (cursor, min (cursor + 6) end_date) :: rangeWindows end_date (min (cursor + 6) end_date + 1)
  else []
termination_by (end_date + 1 - cursor).toNat
decreasing_by
  simp_wf
  omega

/-- The record count of one window payload. -/
def chunkRows (chunk : FeedPayload) : ℤ :=
  (chunk.near_earth_objects.map (fun dayRows => (dayRows.2.length : ℤ))).sum

/-- The links of the first window whose links metadata is non-empty
(empty when every window has empty links). -/
def firstNonEmptyLinks : List FeedPayload → List (String × String)
  | [] => []
  | c :: cs => if c.links.isEmpty then firstNonEmptyLinks cs else c.links

/-- Reference definition transcribed from the wording of claim C1:
empty payload and no call on a degenerate range; a single direct call
when the span `end_date - start_date` is at most 7 days; otherwise one
call per 7-day window in order, per-date record lists concatenated into
one merged mapping, links taken from the first window only, and the
element count the sum of the element counts of all windows. -/
def fetchFeedRangeClaimRef (feed : ℤ → ℤ → FeedPayload) (start_date end_date : ℤ) :
    FeedPayload × List (ℤ × ℤ) :=
  if end_date < start_date then (⟨[], 0, []⟩, [])
  else if end_date - start_date ≤ 7 then (feed start_date end_date, [(start_date, end_date)])
  else
    let ws := rangeWindows end_date start_date
    let chunks := ws.map (fun w => feed w.1 w.2)
    (⟨(chunks.headD emptyFeedPayload).links,
      (chunks.map chunkRows).sum,
      chunks.foldl mergeChunk []⟩, ws)

/-- The reference definition of claim C1 amended in its links clause
only: the links come from the first window whose links metadata is
non-empty, not from the first window unconditionally. -/
def fetchFeedRangeAmendedRef (feed : ℤ → ℤ → FeedPayload) (start_date end_date : ℤ) :
    FeedPayload × List (ℤ × ℤ) :=
  if end_date < start_date then (⟨[], 0, []⟩, [])
  else if end_date - start_date ≤ 7 then (feed start_date end_date, [(start_date, end_date)])
  else
    let ws := rangeWindows end_date start_date
    let chunks := ws.map (fun w => feed w.1 w.2)
    (⟨firstNonEmptyLinks chunks,
      (chunks.map chunkRows).sum,
      chunks.foldl mergeChunk []⟩, ws)

/-- Upstream behaviour separating the code from the claim C1 reference:
the first window answers with empty links, the second with non-empty
links. -/
def feedLinksCEx : ℤ → ℤ → FeedPayload := fun a _ =>
  if a = 0 then ⟨[], 0, []⟩ else ⟨[("next", "page2")], 0, []⟩

-- ===================================================================
-- Theorems
-- ===================================================================

theorem itemLE_trans : ∀ (a b c : NormalizedItem),
    itemLE a b = true → itemLE b c = true → itemLE a c = true := by
  intro a b c hab hbc
  simp only [itemLE, decide_eq_true_eq] at *
  exact le_trans hbc hab

theorem itemLE_total : ∀ (a b : NormalizedItem),
    (itemLE a b || itemLE b a) = true := by
  intro a b
  simp only [itemLE, Bool.or_eq_true, decide_eq_true_eq]
  exact le_total b.risk_score a.risk_score

theorem findEnum_eq (p : CloseApproach → Bool) :
    ∀ (es : List CloseApproach) (i : ℕ),
      findEnum p i es =
        (es.findIdx? p).map (fun j => (i + j, es.getD j emptyCloseApproach)) := by
  intro es
  induction es with
  | nil => intro i; rfl
  | cons e es ih =>
    intro i
    by_cases hp : p e
    · simp [findEnum, hp]
    · have h1 : List.findIdx? p (e :: es) = (es.findIdx? p).map (fun j => j + 1) := by
        rw [List.findIdx?_cons, if_neg (by simp [hp]), List.findIdx?_succ]
      simp only [findEnum, if_neg (by simp [hp] : ¬ (p e = true)), h1, ih (i + 1),
        Option.map_map]
      cases es.findIdx? p with
      | none => rfl
      | some j =>
        simp only [Option.map_some', Function.comp_apply, List.getD_cons_succ]
        have hadd : i + 1 + j = i + (j + 1) := by omega
        rw [hadd]

theorem risk_analysis_score_eq (d m v : Option ℚ) (h : Bool) :
    (risk_analysis d m v h).1 = hazardPoints h + diameterPoints d + missPoints m + velocityPoints v := by
  cases d <;> cases m <;> cases v <;> rfl

theorem risk_analysis_category_eq (d m v : Option ℚ) (h : Bool) :
    (risk_analysis d m v h).2 =
      (if (risk_analysis d m v h).1 ≥ 70 then "High"
       else if (risk_analysis d m v h).1 ≥ 40 then "Medium" else "Low") := by
  cases d <;> cases m <;> cases v <;> rfl

theorem hazardPoints_bounds (h : Bool) : 0 ≤ hazardPoints h ∧ hazardPoints h ≤ 50 := by
  cases h <;> simp [hazardPoints]

theorem diameterPoints_bounds (d : Option ℚ) :
    0 ≤ diameterPoints d ∧ diameterPoints d ≤ 30 := by
  cases d with
  | none => simp [diameterPoints]
  | some q => simp only [diameterPoints]; split_ifs <;> norm_num

theorem missPoints_bounds (m : Option ℚ) : 0 ≤ missPoints m ∧ missPoints m ≤ 30 := by
  cases m with
  | none => simp [missPoints]
  | some q => simp only [missPoints]; split_ifs <;> norm_num

theorem velocityPoints_bounds (v : Option ℚ) :
    0 ≤ velocityPoints v ∧ velocityPoints v ≤ 15 := by
  cases v with
  | none => simp [velocityPoints]
  | some q => simp only [velocityPoints]; split_ifs <;> norm_num

/-- C3: for every combination of optional numeric inputs and the hazardous
flag, `risk_analysis` returns a score in `[0, 125]`, the category satisfies
`score ≥ 70 ↔ "High"`, `40 ≤ score < 70 ↔ "Medium"`, `score < 40 ↔ "Low"`,
and the score is the sum of the hazard (50), diameter (30/20/10/0),
miss-distance (30/20/10/0) and velocity (15/10/5/0) components, a missing
numeric input contributing 0. -/
theorem C3_risk_analysis_bounds_and_category (d m v : Option ℚ) (h : Bool) :
    0 ≤ (risk_analysis d m v h).1 ∧ (risk_analysis d m v h).1 ≤ 125 ∧
    ((risk_analysis d m v h).1 ≥ 70 ↔ (risk_analysis d m v h).2 = "High") ∧
    ((40 ≤ (risk_analysis d m v h).1 ∧ (risk_analysis d m v h).1 < 70) ↔
      (risk_analysis d m v h).2 = "Medium") ∧
    ((risk_analysis d m v h).1 < 40 ↔ (risk_analysis d m v h).2 = "Low") ∧
    (risk_analysis d m v h).1 =
      hazardPoints h + diameterPoints d + missPoints m + velocityPoints v := by
  obtain ⟨h0, h1⟩ := hazardPoints_bounds h
  obtain ⟨d0, d1⟩ := diameterPoints_bounds d
  obtain ⟨m0, m1⟩ := missPoints_bounds m
  obtain ⟨v0, v1⟩ := velocityPoints_bounds v
  have hsum := risk_analysis_score_eq d m v h
  have hcat := risk_analysis_category_eq d m v h
  have hHM : ("High" : String) ≠ "Medium" := by decide
  have hHL : ("High" : String) ≠ "Low" := by decide
  have hMH : ("Medium" : String) ≠ "High" := by decide
  have hML : ("Medium" : String) ≠ "Low" := by decide
  have hLH : ("Low" : String) ≠ "High" := by decide
  have hLM : ("Low" : String) ≠ "Medium" := by decide
  refine ⟨by omega, by omega, ?_, ?_, ?_, hsum⟩ <;>
    · rw [hcat]
      split_ifs with hA hB <;>
        simp_all <;> omega

/-- C8: `risk_analysis` is monotone in each dimension separately: with the
other inputs fixed, a larger diameter, a larger velocity, a smaller miss
distance, or turning the hazardous flag on never decreases the score. -/
theorem C8_risk_analysis_monotone :
    (∀ (d d' : ℚ) (m v : Option ℚ) (h : Bool), d ≤ d' →
      (risk_analysis (some d) m v h).1 ≤ (risk_analysis (some d') m v h).1) ∧
    (∀ (m m' : ℚ) (d v : Option ℚ) (h : Bool), m ≤ m' →
      (risk_analysis d (some m') v h).1 ≤ (risk_analysis d (some m) v h).1) ∧
    (∀ (v v' : ℚ) (d m : Option ℚ) (h : Bool), v ≤ v' →
      (risk_analysis d m (some v) h).1 ≤ (risk_analysis d m (some v') h).1) ∧
    (∀ (d m v : Option ℚ),
      (risk_analysis d m v false).1 ≤ (risk_analysis d m v true).1) := by
  have hd : ∀ (d d' : ℚ), d ≤ d' → diameterPoints (some d) ≤ diameterPoints (some d') := by
    intro d d' hle
    simp only [diameterPoints]
    split_ifs <;> first | (exfalso; linarith) | norm_num
  have hm : ∀ (m m' : ℚ), m ≤ m' → missPoints (some m') ≤ missPoints (some m) := by
    intro m m' hle
    simp only [missPoints]
    split_ifs <;> first | (exfalso; linarith) | norm_num
  have hv : ∀ (v v' : ℚ), v ≤ v' → velocityPoints (some v) ≤ velocityPoints (some v') := by
    intro v v' hle
    simp only [velocityPoints]
    split_ifs <;> first | (exfalso; linarith) | norm_num
  refine ⟨?_, ?_, ?_, ?_⟩
  · intro d d' m v h hle
    have := hd d d' hle
    rw [risk_analysis_score_eq, risk_analysis_score_eq]
    omega
  · intro m m' d v h hle
    have := hm m m' hle
    rw [risk_analysis_score_eq, risk_analysis_score_eq]
    omega
  · intro v v' d m h hle
    have := hv v v' hle
    rw [risk_analysis_score_eq, risk_analysis_score_eq]
    omega
  · intro d m v
    rw [risk_analysis_score_eq, risk_analysis_score_eq]
    have h50 : hazardPoints false ≤ hazardPoints true := by norm_num [hazardPoints]
    omega

/-- Witness for C8 at concrete inputs. -/
theorem C8_witness :
    (risk_analysis (some 100) none none false).1 ≤
      (risk_analysis (some 1500) none none false).1 ∧
    (risk_analysis none (some 8000000) none false).1 ≤
      (risk_analysis none (some 1000) none false).1 ∧
    (risk_analysis none none (some 10) false).1 ≤
      (risk_analysis none none (some 30) false).1 ∧
    (risk_analysis (some 1500) none none false).1 ≤
      (risk_analysis (some 1500) none none true).1 :=
  ⟨C8_risk_analysis_monotone.1 100 1500 none none false (by norm_num),
   C8_risk_analysis_monotone.2.1 1000 8000000 none none false (by norm_num),
   C8_risk_analysis_monotone.2.2.1 10 30 none none false (by norm_num),
   C8_risk_analysis_monotone.2.2.2 (some 1500) none none⟩

/-- C5: for every asteroid record and approach date,
`pick_close_approach` selects (a) the first entry matching the approach
date with orbiting body Earth, else (b) the first entry with orbiting body
Earth, else (c) the first entry, else (d) the empty placeholder with a
null index, returning in cases (a)-(c) the selected entry together with
its index in the original sequence. -/
theorem C5_pick_close_approach_spec (asteroid : Asteroid) (approach_date : String) :
    pick_close_approach asteroid approach_date =
      pickCloseApproachSpec asteroid approach_date := by
  simp only [pick_close_approach, pickCloseApproachSpec, findEnum_eq]
  cases h1 : (asteroid.close_approach_data.getD []).findIdx? (caMatchesDate approach_date) with
  | some j => simp
  | none =>
    simp only [Option.map_none']
    cases h2 : (asteroid.close_approach_data.getD []).findIdx? caIsEarth with
    | some j => simp
    | none => simp

/-- C7: for every feed payload, the output of `normalize_feed_payload` is
sorted by risk score descending, and stably so: for every score value,
the subsequence of items carrying that score equals the corresponding
subsequence of the encounter-order item list. -/
theorem C7_normalize_feed_payload_sorted_stable (p : FeedPayload) (c : ℤ) :
    (normalize_feed_payload p).Pairwise (fun a b => b.risk_score ≤ a.risk_score) ∧
    (normalize_feed_payload p).filter (fun x => x.risk_score == c) =
      (buildFeedItems p).filter (fun x => x.risk_score == c) := by
  constructor
  · have h := List.sorted_mergeSort itemLE_trans itemLE_total (buildFeedItems p)
    refine h.imp ?_
    intro a b hab
    simpa [itemLE] using hab
  · have hfil : ((buildFeedItems p).filter (fun x => x.risk_score == c)).Pairwise
        (fun a b => itemLE a b = true) := by
      apply List.pairwise_of_forall_mem_list
      intro a ha b hb
      have ha2 := (List.mem_filter.mp ha).2
      have hb2 := (List.mem_filter.mp hb).2
      simp only [beq_iff_eq] at ha2 hb2
      simp [itemLE, ha2, hb2]
    have hsub : ((buildFeedItems p).filter (fun x => x.risk_score == c)).Sublist
        (normalize_feed_payload p) :=
      List.sublist_mergeSort itemLE_trans itemLE_total hfil
        (List.filter_sublist (buildFeedItems p))
    have hff : ((buildFeedItems p).filter (fun x => x.risk_score == c)).filter
        (fun x => x.risk_score == c) =
        (buildFeedItems p).filter (fun x => x.risk_score == c) :=
      List.filter_eq_self.mpr (fun a ha => (List.mem_filter.mp ha).2)
    have h2 : ((buildFeedItems p).filter (fun x => x.risk_score == c)).Sublist
        ((normalize_feed_payload p).filter (fun x => x.risk_score == c)) := by
      have := hsub.filter (fun x => x.risk_score == c)
      rwa [hff] at this
    have hlen : ((normalize_feed_payload p).filter (fun x => x.risk_score == c)).length =
        ((buildFeedItems p).filter (fun x => x.risk_score == c)).length :=
      ((List.mergeSort_perm (buildFeedItems p) itemLE).filter
        (fun x => x.risk_score == c)).length_eq
    exact (h2.eq_of_length hlen.symm).symm

/-- C6: normalization is total and degrades to null: `to_float` yields
`none` on null, non-numeric strings and non-convertible objects without
raising; the average diameter is the mean of max and min when both parse,
the single present one when only one parses, and null when neither does;
null propagates to derived meter and kilometer diameters and, for
velocity and miss distance, to all derived conversions. -/
theorem C6_normalization_null_degradation (asteroid : Asteroid) (approach_date : String) :
    (∀ s, to_float (RawVal.badStr s) = none) ∧
    to_float RawVal.null = none ∧
    to_float RawVal.other = none ∧
    (∀ qmx qmn,
      to_float ((asteroid.estimated_diameter_meters.getD ⟨RawVal.null, RawVal.null⟩).estimated_diameter_max) = some qmx →
      to_float ((asteroid.estimated_diameter_meters.getD ⟨RawVal.null, RawVal.null⟩).estimated_diameter_min) = some qmn →
      (normalizeAsteroid approach_date asteroid).estimated_diameter_m = some (pyRound ((qmx + qmn) / 2) 3) ∧
      (normalizeAsteroid approach_date asteroid).estimated_diameter_km = some (pyRound ((qmx + qmn) / 2 / 1000) 6)) ∧
    (∀ qmx,
      to_float ((asteroid.estimated_diameter_meters.getD ⟨RawVal.null, RawVal.null⟩).estimated_diameter_max) = some qmx →
      to_float ((asteroid.estimated_diameter_meters.getD ⟨RawVal.null, RawVal.null⟩).estimated_diameter_min) = none →
      (normalizeAsteroid approach_date asteroid).estimated_diameter_m = some (pyRound qmx 3)) ∧
    (∀ qmn,
      to_float ((asteroid.estimated_diameter_meters.getD ⟨RawVal.null, RawVal.null⟩).estimated_diameter_max) = none →
      to_float ((asteroid.estimated_diameter_meters.getD ⟨RawVal.null, RawVal.null⟩).estimated_diameter_min) = some qmn →
      (normalizeAsteroid approach_date asteroid).estimated_diameter_m = some (pyRound qmn 3)) ∧
    (to_float ((asteroid.estimated_diameter_meters.getD ⟨RawVal.null, RawVal.null⟩).estimated_diameter_max) = none →
      to_float ((asteroid.estimated_diameter_meters.getD ⟨RawVal.null, RawVal.null⟩).estimated_diameter_min) = none →
      (normalizeAsteroid approach_date asteroid).estimated_diameter_m = none ∧
      (normalizeAsteroid approach_date asteroid).estimated_diameter_km = none) ∧
    (asteroid.estimated_diameter_meters = none →
      (normalizeAsteroid approach_date asteroid).estimated_diameter_m = none ∧
      (normalizeAsteroid approach_date asteroid).estimated_diameter_km = none) ∧
    (to_float (((pick_close_approach asteroid approach_date).2.relative_velocity.getD ⟨RawVal.null⟩).kilometers_per_second) = none →
      (normalizeAsteroid approach_date asteroid).relative_velocity_kps = none ∧
      (normalizeAsteroid approach_date asteroid).relative_velocity_kph = none) ∧
    (to_float (((pick_close_approach asteroid approach_date).2.miss_distance.getD ⟨RawVal.null⟩).kilometers) = none →
      (normalizeAsteroid approach_date asteroid).miss_distance_km = none) := by
  refine ⟨fun s => rfl, rfl, rfl, ?_, ?_, ?_, ?_, ?_, ?_, ?_⟩
  · intro qmx qmn hmx hmn
    constructor <;> simp [normalizeAsteroid, hmx, hmn]
  · intro qmx hmx hmn
    simp [normalizeAsteroid, hmx, hmn]
  · intro qmn hmx hmn
    simp [normalizeAsteroid, hmx, hmn]
  · intro hmx hmn
    constructor <;> simp [normalizeAsteroid, hmx, hmn]
  · intro hnone
    constructor <;> simp [normalizeAsteroid, hnone, to_float]
  · intro hvel
    constructor <;> simp [normalizeAsteroid, hvel]
  · intro hmiss
    simp [normalizeAsteroid, hmiss]

/-- Witness for C6 at two concrete records. -/
theorem C6_witness :
    (normalizeAsteroid "2024-01-01" asteroidBothDiameters).estimated_diameter_m =
      some (pyRound ((200 + 100) / 2) 3) ∧
    (normalizeAsteroid "2024-01-01" asteroidAllMissing).estimated_diameter_m = none ∧
    (normalizeAsteroid "2024-01-01" asteroidAllMissing).estimated_diameter_km = none ∧
    (normalizeAsteroid "2024-01-01" asteroidAllMissing).relative_velocity_kps = none ∧
    (normalizeAsteroid "2024-01-01" asteroidAllMissing).relative_velocity_kph = none ∧
    (normalizeAsteroid "2024-01-01" asteroidAllMissing).miss_distance_km = none := by
  have h1 := C6_normalization_null_degradation asteroidBothDiameters "2024-01-01"
  have h2 := C6_normalization_null_degradation asteroidAllMissing "2024-01-01"
  refine ⟨(h1.2.2.2.1 200 100 rfl rfl).1, ?_, ?_, ?_, ?_, ?_⟩
  · exact (h2.2.2.2.2.2.2.2.1 rfl).1
  · exact (h2.2.2.2.2.2.2.2.1 rfl).2
  · exact (h2.2.2.2.2.2.2.2.2.1 rfl).1
  · exact (h2.2.2.2.2.2.2.2.2.1 rfl).2
  · exact h2.2.2.2.2.2.2.2.2.2 rfl

/-- C10: `normalize_lookup_payload` takes the close-approach date, the
orbiting body, the relative velocity and the miss distance from the first
entry of `close_approach_data` unconditionally (null-valued when the list
is empty), without the Earth-preference or date-matching selection of
`pick_close_approach`, and reports `raw_close_approach_count` instead of
a chosen-entry index. -/
theorem C10_normalize_lookup_first_entry (payload : LookupPayload) :
    (normalize_lookup_payload payload).close_approach_date =
      ((payload.close_approach_data.getD []).headD emptyCloseApproach).close_approach_date ∧
    (normalize_lookup_payload payload).orbiting_body =
      ((payload.close_approach_data.getD []).headD emptyCloseApproach).orbiting_body ∧
    (normalize_lookup_payload payload).relative_velocity_kps =
      (to_float ((((payload.close_approach_data.getD []).headD emptyCloseApproach).relative_velocity.getD ⟨RawVal.null⟩).kilometers_per_second)).map
        (fun q => pyRound q 6) ∧
    (normalize_lookup_payload payload).miss_distance_km =
      (to_float ((((payload.close_approach_data.getD []).headD emptyCloseApproach).miss_distance.getD ⟨RawVal.null⟩).kilometers)).map
        (fun q => pyRound q 3) ∧
    (normalize_lookup_payload payload).raw_close_approach_count =
      (payload.close_approach_data.getD []).length ∧
    (payload.close_approach_data.getD [] = [] →
      (normalize_lookup_payload payload).close_approach_date = none ∧
      (normalize_lookup_payload payload).orbiting_body = none ∧
      (normalize_lookup_payload payload).relative_velocity_kps = none ∧
      (normalize_lookup_payload payload).miss_distance_km = none) := by
  cases hcad : payload.close_approach_data with
  | none =>
    refine ⟨?_, ?_, ?_, ?_, ?_, ?_⟩ <;>
      simp [normalize_lookup_payload, hcad, emptyCloseApproach, to_float]
  | some l =>
    cases l with
    | nil =>
      refine ⟨?_, ?_, ?_, ?_, ?_, ?_⟩ <;>
        simp [normalize_lookup_payload, hcad, emptyCloseApproach, to_float]
    | cons e es =>
      refine ⟨?_, ?_, ?_, ?_, ?_, ?_⟩ <;>
        simp [normalize_lookup_payload, hcad]

/-- Witness for C10 at two concrete lookup payloads: the first entry is
used even though it does not orbit Earth, and an empty list degrades to
null fields. -/
theorem C10_witness :
    (normalize_lookup_payload lookupTwoEntries).orbiting_body = some "Venus" ∧
    (normalize_lookup_payload lookupTwoEntries).raw_close_approach_count = 2 ∧
    (normalize_lookup_payload lookupNoEntries).close_approach_date = none ∧
    (normalize_lookup_payload lookupNoEntries).orbiting_body = none ∧
    (normalize_lookup_payload lookupNoEntries).relative_velocity_kps = none ∧
    (normalize_lookup_payload lookupNoEntries).miss_distance_km = none := by
  have h1 := C10_normalize_lookup_first_entry lookupTwoEntries
  have h2 := C10_normalize_lookup_first_entry lookupNoEntries
  refine ⟨h1.2.1.trans rfl, (h1.2.2.2.2.1).trans rfl, ?_, ?_, ?_, ?_⟩
  · exact (h2.2.2.2.2.2 rfl).1
  · exact (h2.2.2.2.2.2 rfl).2.1
  · exact (h2.2.2.2.2.2 rfl).2.2.1
  · exact (h2.2.2.2.2.2 rfl).2.2.2

/-- C9: `ChatManager.rename` trims the proposed name and truncates it to
24 characters; when the result is empty it sends the requester a private
error event, leaves the registry unchanged and broadcasts nothing;
otherwise it updates the registry and emits a broadcast naming old and
new exactly when the cleaned name differs from the previous one. -/
theorem C9_chat_rename (st : ChatState) (ws : SocketId) (next_name : String) :
    (cleanName next_name = "" →
      ChatManager.rename st ws next_name =
        (st, [ChatEvent.personal ws "error" "Display name cannot be empty."])) ∧
    (cleanName next_name ≠ "" →
      (ChatManager.rename st ws next_name).1 =
        ⟨dictSet st.clients ws (cleanName next_name)⟩ ∧
      (ChatManager.rename st ws next_name).2 =
        (if cleanName next_name ≠ username_for st ws then
          [ChatEvent.broadcastSystem
            (username_for st ws ++ " is now " ++ cleanName next_name ++ ".")]
         else [])) := by
  constructor
  · intro hempty
    simp [ChatManager.rename, hempty]
  · intro hne
    constructor
    · simp only [ChatManager.rename]
      rw [if_neg hne]
      split <;> rfl
    · simp only [ChatManager.rename]
      rw [if_neg hne]
      by_cases hchanged : cleanName next_name = username_for st ws
      · rw [if_neg (not_not_intro hchanged), if_neg (not_not_intro hchanged)]
      · rw [if_pos hchanged, if_pos hchanged]

/-- Witness for C9: an all-whitespace rename yields only a private error
and no registry change; renaming Guest `1` to `Alice` and then to
`Alice` again broadcasts exactly once. -/
theorem C9_witness :
    ChatManager.rename ⟨[(1, "Guest-4821")]⟩ 1 "   " =
      (⟨[(1, "Guest-4821")]⟩, [ChatEvent.personal 1 "error" "Display name cannot be empty."]) ∧
    (ChatManager.rename ⟨[(1, "Guest-4821")]⟩ 1 "Alice").1 = ⟨[(1, "Alice")]⟩ ∧
    (ChatManager.rename ⟨[(1, "Guest-4821")]⟩ 1 "Alice").2 =
      [ChatEvent.broadcastSystem "Guest-4821 is now Alice."] ∧
    (ChatManager.rename ⟨[(1, "Alice")]⟩ 1 "Alice").1 = ⟨[(1, "Alice")]⟩ ∧
    (ChatManager.rename ⟨[(1, "Alice")]⟩ 1 "Alice").2 = [] := by
  have h1 := (C9_chat_rename ⟨[(1, "Guest-4821")]⟩ 1 "   ").1 (by decide)
  have h2 := (C9_chat_rename ⟨[(1, "Guest-4821")]⟩ 1 "Alice").2 (by decide)
  have h3 := (C9_chat_rename ⟨[(1, "Alice")]⟩ 1 "Alice").2 (by decide)
  refine ⟨h1, ?_, ?_, ?_, ?_⟩
  · rw [h2.1]; decide
  · rw [h2.2]; decide
  · rw [h3.1]; decide
  · rw [h3.2]; decide

theorem dictGet_dictSet {κ α : Type} [DecidableEq κ] :
    ∀ (d : List (κ × α)) (k : κ) (v : α), dictGet (dictSet d k v) k = some v := by
  intro d k v
  induction d with
  | nil => simp [dictSet, dictGet]
  | cons kv rest ih =>
    obtain ⟨k', v'⟩ := kv
    by_cases hk : k' = k
    · simp [dictSet, dictGet, hk]
    · simp [dictSet, dictGet, hk, ih]

theorem cachedFetch_fresh {κ π : Type} [DecidableEq κ] (ttl : ℤ)
    (cache : List (κ × (ℤ × π))) (now ts : ℤ) (key : κ) (p : π)
    (hr : Except RequestError π)
    (hget : dictGet cache key = some (ts, p)) (hfresh : now - ts ≤ ttl) :
    cachedFetch ttl cache now key hr = (Except.ok p, cache, false) := by
  have hc : _cache_get cache key ttl now = some p := by
    unfold _cache_get
    rw [hget]
    exact if_neg (by omega)
  simp [cachedFetch, hc]

theorem cachedFetch_store {κ π : Type} [DecidableEq κ] (ttl : ℤ)
    (cache : List (κ × (ℤ × π))) (now : ℤ) (key : κ) (payload : π)
    (hmiss : _cache_get cache key ttl now = none) :
    cachedFetch ttl cache now key (Except.ok payload) =
      (Except.ok payload, dictSet cache key (now, payload), true) := by
  simp [cachedFetch, hmiss]

/-- C4: a cache entry no older than the TTL (90 s feed, 6 h lookup) is
returned without a network request; on a cache miss the request is
issued and a successful payload is stored under the key at the current
time, overwriting any prior entry, and returned. -/
theorem C4_cache_fresh_and_store :
    (∀ (cache : List ((ℤ × ℤ) × (ℤ × FeedPayload))) (now s e ts : ℤ) (p : FeedPayload)
       (hr : Except RequestError FeedPayload),
       dictGet cache (s, e) = some (ts, p) → now - ts ≤ _FEED_TTL_SECONDS →
       fetch_feed cache now s e hr = (Except.ok p, cache, false)) ∧
    (∀ (cache : List ((ℤ × ℤ) × (ℤ × FeedPayload))) (now s e : ℤ) (payload : FeedPayload),
       _cache_get cache (s, e) _FEED_TTL_SECONDS now = none →
       fetch_feed cache now s e (Except.ok payload) =
         (Except.ok payload, dictSet cache (s, e) (now, payload), true) ∧
       dictGet (dictSet cache (s, e) (now, payload)) (s, e) = some (now, payload)) ∧
    (∀ (cache : List (String × (ℤ × LookupPayload))) (now ts : ℤ) (aid : String)
       (p : LookupPayload) (hr : Except RequestError LookupPayload),
       dictGet cache aid = some (ts, p) → now - ts ≤ _LOOKUP_TTL_SECONDS →
       fetch_lookup cache now aid hr = (Except.ok p, cache, false)) ∧
    (∀ (cache : List (String × (ℤ × LookupPayload))) (now : ℤ) (aid : String)
       (payload : LookupPayload),
       _cache_get cache aid _LOOKUP_TTL_SECONDS now = none →
       fetch_lookup cache now aid (Except.ok payload) =
         (Except.ok payload, dictSet cache aid (now, payload), true) ∧
       dictGet (dictSet cache aid (now, payload)) aid = some (now, payload)) := by
  refine ⟨?_, ?_, ?_, ?_⟩
  · intro cache now s e ts p hr hget hfresh
    exact cachedFetch_fresh _FEED_TTL_SECONDS cache now ts (s, e) p hr hget hfresh
  · intro cache now s e payload hmiss
    exact ⟨cachedFetch_store _FEED_TTL_SECONDS cache now (s, e) payload hmiss,
      dictGet_dictSet cache (s, e) (now, payload)⟩
  · intro cache now ts aid p hr hget hfresh
    exact cachedFetch_fresh _LOOKUP_TTL_SECONDS cache now ts aid p hr hget hfresh
  · intro cache now aid payload hmiss
    exact ⟨cachedFetch_store _LOOKUP_TTL_SECONDS cache now aid payload hmiss,
      dictGet_dictSet cache aid (now, payload)⟩

/-- Witness for C4 at concrete caches and clocks. -/
theorem C4_witness :
    fetch_feed [((0, 0), (950, feedPayloadA))] 1000 0 0 (Except.error exc500) =
      (Except.ok feedPayloadA, [((0, 0), (950, feedPayloadA))], false) ∧
    fetch_feed [] 1000 0 0 (Except.ok feedPayloadB) =
      (Except.ok feedPayloadB, [((0, 0), (1000, feedPayloadB))], true) ∧
    fetch_lookup [("99942", (0, lookupPayloadA))] 21000 "99942" (Except.error exc500) =
      (Except.ok lookupPayloadA, [("99942", (0, lookupPayloadA))], false) ∧
    fetch_lookup [] 1000 "99942" (Except.ok lookupPayloadA) =
      (Except.ok lookupPayloadA, [("99942", (1000, lookupPayloadA))], true) := by
  have h := C4_cache_fresh_and_store
  exact ⟨h.1 _ 1000 0 0 950 feedPayloadA _ (by decide) (by decide),
    (h.2.1 [] 1000 0 0 feedPayloadB (by decide)).1,
    h.2.2.1 _ 21000 0 "99942" lookupPayloadA _ (by decide) (by decide),
    (h.2.2.2 [] 1000 "99942" lookupPayloadA (by decide)).1⟩

/-- C2: an upstream failure inside `fetch_feed` / `fetch_lookup`
(both instances of `cachedFetch`) is classified rate-limited exactly when
the status is 429, or 401/403 with a body (JSON or text, lower-cased)
containing "rate limit" or "too many requests"; in that case any existing
cache entry, expired or not, is returned unchanged, and without one a 503
`NASA_RATE_LIMIT` failure is raised; every other failure propagates even
when a stale entry exists. -/
theorem C2_rate_limit_classification_and_stale_fallback
    {κ π : Type} [DecidableEq κ] (ttl : ℤ) (cache : List (κ × (ℤ × π)))
    (now : ℤ) (key : κ) (exc : RequestError)
    (hmiss : _cache_get cache key ttl now = none) :
    (_looks_like_rate_limit exc = true ↔ claimRateLimited exc) ∧
    (_looks_like_rate_limit exc = true →
      (∀ entry : ℤ × π, dictGet cache key = some entry →
        cachedFetch ttl cache now key (Except.error exc) =
          (Except.ok entry.2, cache, true)) ∧
      (dictGet cache key = none →
        cachedFetch ttl cache now key (Except.error exc) =
          (Except.error ⟨503, "NASA_RATE_LIMIT", none⟩, cache, true))) ∧
    (_looks_like_rate_limit exc = false →
      cachedFetch ttl cache now key (Except.error exc) =
        (Except.error (_raise_nasa_error exc), cache, true) ∧
      (_raise_nasa_error exc).error ≠ "NASA_RATE_LIMIT") := by
  refine ⟨?_, ?_, ?_⟩
  · cases hresp : exc.response with
    | none => simp [_looks_like_rate_limit, claimRateLimited, hresp]
    | some r =>
      by_cases h429 : r.status_code = some 429
      · simp [_looks_like_rate_limit, claimRateLimited, hresp, h429]
      · by_cases hauth : r.status_code = some 401 ∨ r.status_code = some 403
        · simp [_looks_like_rate_limit, claimRateLimited, excBodyText, hresp, h429, hauth]
        · simp [_looks_like_rate_limit, claimRateLimited, hresp, h429, hauth]
  · intro hrl
    constructor
    · intro entry hentry
      simp [cachedFetch, hmiss, hrl, hentry]
    · intro hnone
      have hraise : _raise_nasa_error exc = ⟨503, "NASA_RATE_LIMIT", none⟩ := by
        simp [_raise_nasa_error, hrl]
      simp [cachedFetch, hmiss, hrl, hnone, hraise]
  · intro hnrl
    constructor
    · simp [cachedFetch, hmiss, hnrl]
    · simp only [_raise_nasa_error, hnrl, Bool.false_eq_true, if_false]
      split_ifs <;> simp

/-- Witness for C2 at concrete failures and caches: a 429 with a stale
entry falls back to it, a 429 without one raises `NASA_RATE_LIMIT`, a 403
whose body mentions the rate limit is classified rate-limited, and a 500
propagates even though a stale entry exists. -/
theorem C2_witness :
    (_looks_like_rate_limit exc429 = true ↔ claimRateLimited exc429) ∧
    fetch_feed [((0, 0), (0, feedPayloadA))] 1000 0 0 (Except.error exc429) =
      (Except.ok feedPayloadA, [((0, 0), (0, feedPayloadA))], true) ∧
    fetch_feed [] 1000 0 0 (Except.error exc429) =
      (Except.error ⟨503, "NASA_RATE_LIMIT", none⟩, [], true) ∧
    _looks_like_rate_limit exc403 = true ∧
    fetch_feed [((0, 0), (0, feedPayloadA))] 1000 0 0 (Except.error exc500) =
      (Except.error (_raise_nasa_error exc500), [((0, 0), (0, feedPayloadA))], true) := by
  have h1 := C2_rate_limit_classification_and_stale_fallback _FEED_TTL_SECONDS
    [((0, 0), (0, feedPayloadA))] 1000 ((0 : ℤ), (0 : ℤ)) exc429 (by decide)
  have h2 := C2_rate_limit_classification_and_stale_fallback _FEED_TTL_SECONDS
    ([] : List ((ℤ × ℤ) × (ℤ × FeedPayload))) 1000 ((0 : ℤ), (0 : ℤ)) exc429 (by decide)
  have h3 := C2_rate_limit_classification_and_stale_fallback _FEED_TTL_SECONDS
    [((0, 0), (0, feedPayloadA))] 1000 ((0 : ℤ), (0 : ℤ)) exc403 (by decide)
  have h4 := C2_rate_limit_classification_and_stale_fallback _FEED_TTL_SECONDS
    [((0, 0), (0, feedPayloadA))] 1000 ((0 : ℤ), (0 : ℤ)) exc500 (by decide)
  refine ⟨h1.1, ?_, ?_, ?_, ?_⟩
  · exact (h1.2.1 (by decide)).1 (0, feedPayloadA) (by decide)
  · exact (h2.2.1 (by decide)).2 (by decide)
  · exact h3.1.mpr (by unfold claimRateLimited excBodyText; decide)
  · exact (h4.2.2 (by decide)).1

theorem totalRows_dictExtend :
    ∀ (m : List (String × List Asteroid)) (day : String) (rows : List Asteroid),
      totalRows (dictExtend m day rows) = totalRows m + rows.length := by
  intro m
  induction m with
  | nil => intro day rows; simp [dictExtend, totalRows]
  | cons hd rest ih =>
    intro day rows
    obtain ⟨d, rs⟩ := hd
    by_cases hday : d = day
    · simp only [dictExtend, if_pos hday, totalRows, List.map_cons, List.sum_cons,
        List.length_append]
      push_cast
      ring
    · simp only [dictExtend, if_neg hday, totalRows, List.map_cons, List.sum_cons]
      have := ih day rows
      simp only [totalRows] at this
      rw [this]
      ring

theorem totalRows_mergeChunk (merged : List (String × List Asteroid)) (chunk : FeedPayload) :
    totalRows (mergeChunk merged chunk) = totalRows merged + chunkRows chunk := by
  unfold mergeChunk chunkRows
  generalize chunk.near_earth_objects = l
  induction l generalizing merged with
  | nil => simp
  | cons dr rest ih =>
    simp only [List.foldl_cons, List.map_cons, List.sum_cons]
    rw [ih (dictExtend merged dr.1 dr.2), totalRows_dictExtend]
    ring

theorem totalRows_foldl :
    ∀ (chunks : List FeedPayload) (m : List (String × List Asteroid)),
      totalRows (chunks.foldl mergeChunk m) = totalRows m + (chunks.map chunkRows).sum := by
  intro chunks
  induction chunks with
  | nil => intro m; simp
  | cons c rest ih =>
    intro m
    simp only [List.foldl_cons, List.map_cons, List.sum_cons]
    rw [ih (mergeChunk m c), totalRows_mergeChunk]
    ring

theorem feedRangeLoop_spec (feed : ℤ → ℤ → FeedPayload) (e : ℤ) :
    ∀ (n : ℕ) (cursor : ℤ), (e + 1 - cursor).toNat = n →
      ∀ (links : List (String × String)) (merged : List (String × List Asteroid)),
        feedRangeLoop feed e cursor links merged =
          ((if links.isEmpty then
              firstNonEmptyLinks ((rangeWindows e cursor).map (fun w => feed w.1 w.2))
            else links),
           ((rangeWindows e cursor).map (fun w => feed w.1 w.2)).foldl mergeChunk merged,
           rangeWindows e cursor) := by
  intro n
  induction n using Nat.strong_induction_on with
  | _ n ih =>
    intro cursor hn links merged
    by_cases hc : cursor ≤ e
    · rw [feedRangeLoop, rangeWindows, dif_pos hc, dif_pos hc]
      dsimp only
      have hrec := ih (e + 1 - (min (cursor + 6) e + 1)).toNat (by omega)
        (min (cursor + 6) e + 1) rfl
        (if links.isEmpty then (feed cursor (min (cursor + 6) e)).links else links)
        (mergeChunk merged (feed cursor (min (cursor + 6) e)))
      rw [hrec]
      simp only [List.map_cons, List.foldl_cons, firstNonEmptyLinks]
      by_cases hl : links.isEmpty
      · simp [hl]
      · simp [hl]
    · rw [feedRangeLoop, rangeWindows, dif_neg hc, dif_neg hc]
      simp only [List.map_nil, List.foldl_nil, firstNonEmptyLinks]
      cases links with
      | nil => simp
      | cons l ls => simp

/-- Counterexample to C1 as stated: when the first window returns empty
links metadata and a later window returns non-empty links, the code keeps
the later links while the claim reference keeps the first (empty) ones. -/
theorem C1_counterexample :
    fetch_feed_range feedLinksCEx 0 8 ≠ fetchFeedRangeClaimRef feedLinksCEx 0 8 := by
  have h1 : (fetch_feed_range feedLinksCEx 0 8).1.links = [("next", "page2")] := by
    simp [fetch_feed_range, feedRangeLoop, feedLinksCEx, totalRows, mergeChunk, Int.min_def]
  have h2 : (fetchFeedRangeClaimRef feedLinksCEx 0 8).1.links = [] := by
    simp [fetchFeedRangeClaimRef, rangeWindows, feedLinksCEx, emptyFeedPayload, Int.min_def]
  intro heq
  rw [heq, h2] at h1
  exact absurd h1 (by decide)

/-- C1 amended: `fetch_feed_range` equals the claim C1 reference
definition with its links clause amended to take the links of the first
window whose links metadata is non-empty (empty when every window has
empty links); all other clauses of the claim hold as stated. -/
theorem C1_fetch_feed_range_amended (feed : ℤ → ℤ → FeedPayload) (start_date end_date : ℤ) :
    fetch_feed_range feed start_date end_date =
      fetchFeedRangeAmendedRef feed start_date end_date := by
  unfold fetch_feed_range fetchFeedRangeAmendedRef
  by_cases h1 : end_date < start_date
  · rw [if_pos h1, if_pos h1]
  · rw [if_neg h1, if_neg h1]
    by_cases h2 : end_date - start_date ≤ 7
    · rw [if_pos h2, if_pos h2]
    · rw [if_neg h2, if_neg h2]
      dsimp only
      rw [feedRangeLoop_spec feed end_date (end_date + 1 - start_date).toNat start_date rfl]
      dsimp only
      rw [totalRows_foldl]
      simp [totalRows]
